import Mathlib

/-!
# Verification of the DOI batch PDF downloader (src/app.py)

This file gives a shallow embedding, in Lean 4, of the core retrieval and
batch logic of the downloader: DOI normalization, URL resolution, content
validation, the per-DOI mirror fallback chain (with its inter-attempt
delay as an observable event), the open-access fallback, and batch
orchestration.  Network and filesystem effects are modelled by explicit
oracle functions and an explicit file-system value threaded through the
definitions.  All definitions are executable so that concrete scenarios
evaluate by `decide`.
-/

set_option autoImplicit false
set_option maxRecDepth 16384

/-! ## Character-list string primitives

Python string operations used by the source (`strip`, `startswith`,
`replace`, `split`, `lower`, substring membership) are modelled on the
underlying character list of a Lean `String`, so that every concrete
instance reduces inside the kernel.
-/

/-- Leading- and trailing-whitespace removal on a character list;
models Python `str.strip()`. -/
def trimChars (l : List Char) : List Char :=
  ((l.dropWhile Char.isWhitespace).reverse.dropWhile Char.isWhitespace).reverse

/-- Python `s.strip()`. -/
def strTrim (s : String) : String :=
  String.mk (trimChars s.data)

/-- Python `s.startswith(p)`. -/
def strStartsWith (s p : String) : Bool :=
  List.isPrefixOf p.data s.data

/-- Remove every (left-to-right, non-overlapping) occurrence of `pat`
from the list, with explicit fuel; models the Python replace of pat by the empty string
when started with fuel equal to the length of the list. -/
def removeAllAux (pat : List Char) : Nat → List Char → List Char
  | _, [] => []
  | 0, l => l
  | Nat.succ n, c :: cs =>
    if List.isPrefixOf pat (c :: cs) then
      removeAllAux pat n (List.drop pat.length (c :: cs))
    else
      c :: removeAllAux pat n cs

/-- Python replace of `pat` by the empty string: delete every occurrence. -/
def strRemoveAll (s pat : String) : String :=
  String.mk (removeAllAux pat.data s.data.length s.data)

/-- Python `s.lower()` (ASCII case folding suffices for the markers
the source searches for). -/
def strLower (s : String) : String :=
  String.mk (s.data.map Char.toLower)

/-- First `n` characters; models reading the first `n` bytes of the
payload (payload bytes are modelled as characters). -/
def strTake (s : String) (n : Nat) : String :=
  String.mk (s.data.take n)

/-- Python substring membership `needle in hay` on character lists. -/
def containsSub (needle : List Char) : List Char → Bool
  | [] => needle.isEmpty
  | c :: hs => List.isPrefixOf needle (c :: hs) || containsSub needle hs

/-- Python `needle in hay` for strings. -/
def strContains (hay needle : String) : Bool :=
  containsSub needle.data hay.data

/-- Split a character list at every comma; models Python `s.split(",")`. -/
def splitCommaAux : List Char → List Char → List (List Char)
  | [], acc => [acc.reverse]
  | c :: cs, acc =>
    if c = ',' then acc.reverse :: splitCommaAux cs [] else splitCommaAux cs (c :: acc)

/-- Python `s.split(",")`. -/
def splitComma (s : String) : List (List Char) :=
  splitCommaAux s.data []

/-- Strip leading and trailing double-quote characters; models the Python
strip of double-quote characters applied to each comma-separated DOI token. -/
def stripQuoteChars (l : List Char) : List Char :=
  ((l.dropWhile (fun c => c = '"')).reverse.dropWhile (fun c => c = '"')).reverse

/-- Python `"\n".join(l)`. -/
def joinNewline : List String → String
  | [] => ""
  | [s] => s
  | s :: rest => s ++ "\n" ++ joinNewline rest

/-! ## DOI normalization (src/app.py, `download_paper` lines 64-66)

The source does `doi = doi.strip()` and then, when the result starts with
the resolver prefix, replaces that prefix by the empty string — note
that Python `replace` deletes every occurrence, not only the leading one.
-/

/-- DOI normalization as performed at the top of `download_paper`. -/
def normalize_doi (doi : String) : String :=
  let d := strTrim doi
  if strStartsWith d "https://doi.org/" then strRemoveAll d "https://doi.org/" else d

/-! ## Filename sanitization (src/app.py lines 132-133 and 186-187)

The source replaces every slash, then every backslash, by an underscore;
both replacements
substitute a single character, so their composition is a character map.
-/

/-- The sanitized filename stem computed before writing a PDF. -/
def safe_doi (d : String) : String :=
  String.mk (d.data.map (fun c => if c = '/' || c = '\\' then '_' else c))

/-! ## URL resolution (src/app.py lines 114-119)

A protocol-relative candidate gets `https:` prepended; a candidate that
does not start with `http://` or `https://` is resolved against
`scheme://netloc` of the mirror base URL (Python `urlparse`); any other
candidate is used as-is.
-/

/-- Split a character list at the first occurrence of `pat`, returning
the parts before and after it, or `none` when `pat` does not occur. -/
def splitOnFirst (pat : List Char) : List Char → Option (List Char × List Char)
  | [] => if pat.isEmpty then some ([], []) else none
  | c :: cs =>
    if List.isPrefixOf pat (c :: cs) then
      some ([], List.drop pat.length (c :: cs))
    else
      match splitOnFirst pat cs with
      | some (b, a) => some (c :: b, a)
      | none => none

/-- Python urlparse scheme and netloc joined back as an origin, for base URLs
of the form `scheme://host/...` (the shape every mirror base URL has). -/
def url_origin (u : String) : String :=
  match splitOnFirst ("://").data u.data with
  | some (sch, rest) => String.mk (sch ++ ("://").data ++ rest.takeWhile (fun c => c ≠ '/'))
  | none => "://"

/-- Resolution of an extracted PDF candidate URL against the mirror base
URL, as done in `download_paper` (lines 114-119). -/
def resolve_pdf_url (pdfUrl mirror : String) : String :=
  if strStartsWith pdfUrl "//" then "https:" ++ pdfUrl
  else if !(strStartsWith pdfUrl "http://" || strStartsWith pdfUrl "https://") then
    let base := url_origin mirror
    if strStartsWith pdfUrl "/" then base ++ pdfUrl else base ++ "/" ++ pdfUrl
  else pdfUrl

/-! ## Content validation (src/app.py lines 138-145)

After the payload is written, a payload below 10,000 bytes has its first
1,000 bytes decoded permissively and sniffed for an HTML marker; a match
deletes the file and fails the attempt.
-/

/-- The HTML sniff applied to a small payload: the first 1,000 bytes,
lower-cased, contain an HTML document marker. -/
def html_sniff (content : String) : Bool :=
  let start := strLower (strTake content 1000)
  strContains start "<html" || strContains start "<!doctype html"

/-- A downloaded payload is rejected exactly when it is below the 10,000
byte floor and the HTML sniff fires. -/
def content_rejected (content : String) : Bool :=
  decide (content.data.length < 10000) && html_sniff content

/-! ## Outcome-level model of the fallback chain and the batch

`download_paper` wraps its whole network/parse/write body in
`try/except Exception: return False`; `download_open_access` does the
same.  The body of one attempt is abstracted as an `Except String Bool`
oracle: `Except.ok b` for a normal return of `b`, `Except.error e` for a
raised exception.  `batch_download` itself has no handler; it relies on
the per-attempt handlers always delivering a `Bool`.
-/

/-- The `try/except` wrapper shared by `download_paper` and
`download_open_access`: a raised exception becomes `False`. -/
def attempt_result (body : Except String Bool) : Bool :=
  match body with
  | Except.ok b => b
  | Except.error _ => false

/-- Model of `try_download_with_mirrors` at the outcome level: try each mirror in
order with the locally normalized DOI, stop at the first success, and
fall back to `download_open_access` (called with the raw DOI) after the
last mirror fails.  `mb mirror doi` / `oab doi` are the attempt bodies. -/
def try_download_with_mirrors
    (doi : String) (mirrors : List String)
    (mb : String → String → Except String Bool)
    (oab : String → Except String Bool) : Bool :=
  match mirrors with
  | [] => attempt_result (oab doi)
  | m :: ms =>
    if attempt_result (mb m (normalize_doi doi)) then true
    else try_download_with_mirrors doi ms mb oab

/-- Model of `batch_download` at the outcome level: iterate the DOI list in order,
appending each DOI to the successful or the failed list according to the
outcome of its fallback chain. -/
def batch_download
    (dois mirrors : List String)
    (mb : String → String → Except String Bool)
    (oab : String → Except String Bool) : List String × List String :=
  match dois with
  | [] => ([], [])
  | d :: ds =>
    let rest := batch_download ds mirrors mb oab
    if try_download_with_mirrors d mirrors mb oab then (d :: rest.1, rest.2)
    else (rest.1, d :: rest.2)

/-! ## Event-trace model of one fallback run (src/app.py lines 44-55)

To settle the claims about attempt order and the placement of the
randomized inter-attempt delay, one run of `try_download_with_mirrors`
is re-expressed as the list of observable events it performs: a mirror
attempt, a blocking sleep, or the open-access call.  In the source the
loop body is: attempt the mirror; on success return; otherwise sleep and
continue; after the loop, call `download_open_access`. -/

/-- Observable events of one per-DOI fallback run. -/
inductive DlEvent : Type
  | attempt : String → DlEvent
  | sleep : DlEvent
  | oaCall : DlEvent
deriving DecidableEq, Repr

/-- Event trace and outcome of `try_download_with_mirrors` for one DOI:
`f m` is the outcome of `download_paper` on mirror `m`, `oaR` the
outcome of the open-access fallback. -/
def tdwm_trace (mirrors : List String) (f : String → Bool) (oaR : Bool) :
    Bool × List DlEvent :=
  match mirrors with
  | [] => (oaR, [DlEvent.oaCall])
  | m :: ms =>
    if f m then (true, [DlEvent.attempt m])
    else
      let r := tdwm_trace ms f oaR
      (r.1, DlEvent.attempt m :: DlEvent.sleep :: r.2)

/-- Is the event a mirror attempt? -/
def isAttemptEv : DlEvent → Bool
  | DlEvent.attempt _ => true
  | _ => false

/-- Is the event the blocking sleep? -/
def isSleepEv : DlEvent → Bool
  | DlEvent.sleep => true
  | _ => false

/-- Is the event the open-access call? -/
def isOaEv : DlEvent → Bool
  | DlEvent.oaCall => true
  | _ => false

/-- The mirrors attempted during a trace, in order. -/
def attemptsOf (evs : List DlEvent) : List String :=
  evs.filterMap (fun e => match e with
    | DlEvent.attempt m => some m
    | _ => none)

/-- The prefix of the mirror list that the source actually tries: every
mirror up to and including the first successful one (all of them when
none succeeds). -/
def mirrorsTried (f : String → Bool) : List String → List String
  | [] => []
  | m :: ms => if f m then [m] else m :: mirrorsTried f ms

/-- The placement property asserted by the specification: every sleep
event has a mirror attempt strictly before it and a mirror attempt
strictly after it. -/
def delay_only_between_attempts (evs : List DlEvent) : Bool :=
  (List.range evs.length).all (fun i =>
    match evs.drop i with
    | DlEvent.sleep :: rest => (evs.take i).any isAttemptEv && rest.any isAttemptEv
    | _ => true)

/-- Local well-placement of sleeps in a trace: every sleep event is
immediately preceded by a mirror attempt and immediately followed by a
mirror attempt or by the open-access call, and a sleep is never the last
event. -/
def sleep_chain_ok : List DlEvent → Bool
  | [] => true
  | [e] => !(isSleepEv e)
  | e1 :: e2 :: rest =>
    (if isSleepEv e2 then
       isAttemptEv e1 &&
         (match rest with
          | [] => false
          | e3 :: _ => isAttemptEv e3 || isOaEv e3)
     else true) && sleep_chain_ok (e2 :: rest)

/-! ## Payload-level model with an explicit file system

The output directory is modelled as an association list from filename to
file content; opening in write mode overwrites in place, file removal
deletes the entry.  The network is modelled by an oracle record: the final result
of the page fetch (after the 403 bypass logic of `fetch_with_bypass`),
the PDF-link extraction heuristics over the returned HTML (abstracted as
a function, since the claims do not inspect the markup heuristics), the
payload fetch, and the Unpaywall lookup abstracted to its HTTP status
and the PDF URL its JSON parsing yields. -/

/-- The flat output directory: filenames paired with file contents. -/
abbrev FileSys : Type := List (String × String)

/-- Model of opening a file in write mode and writing: overwrite an existing entry in
place, otherwise append a new one. -/
def fsWrite : FileSys → String → String → FileSys
  | [], n, c => [(n, c)]
  | (m, c0) :: fs, n, c =>
    if m = n then (m, c) :: fs else (m, c0) :: fsWrite fs n c

/-- Model of removing a file by name. -/
def fsRemove : FileSys → String → FileSys
  | [], _ => []
  | (m, c0) :: fs, n => if m = n then fs else (m, c0) :: fsRemove fs n

/-- Network oracle for one batch run. -/
structure Net : Type where
  /-- Response to the mirror page fetch `GET mirror ++ doi`
  (status code and body), after the bypass logic. -/
  fetchPage : String → Nat × String
  /-- The candidate URL the ordered BeautifulSoup heuristics extract
  from the page body, when any heuristic matches. -/
  extractPdf : String → Option String
  /-- Response to the payload fetch (status code and payload bytes,
  bytes modelled as characters). -/
  fetchPdf : String → Nat × String
  /-- Unpaywall lookup for a raw DOI: HTTP status and the PDF URL that
  the JSON preference order (best_oa_location, then oa_locations)
  produces. -/
  oaLookup : String → Nat × Option String

/-- Model of `download_paper` (lines 57-152): normalize the DOI, fetch the mirror
page, extract a candidate link, resolve it, fetch the payload, write it,
and validate; validation failure removes the written file.  Returns the
success flag and the updated file system. -/
def download_paper_fs (net : Net) (doi mirror : String) (fs : FileSys) :
    Bool × FileSys :=
  let d := normalize_doi doi
  let page := net.fetchPage (mirror ++ d)
  if page.1 ≠ 200 then (false, fs)
  else
    match net.extractPdf page.2 with
    | none => (false, fs)
    | some cand =>
      let pdf := net.fetchPdf (resolve_pdf_url cand mirror)
      if pdf.1 ≠ 200 then (false, fs)
      else
        let fname := safe_doi d ++ ".pdf"
        let fs1 := fsWrite fs fname pdf.2
        if content_rejected pdf.2 then (false, fsRemove fs1 fname)
        else (true, fs1)

/-- Model of `download_open_access` (lines 154-194): query Unpaywall with the
*raw* DOI; on a resolved URL fetch the payload and, on HTTP 200, write
it and report success — no size floor and no HTML sniff are applied on
this path. -/
def download_open_access_fs (net : Net) (doi : String) (fs : FileSys) :
    Bool × FileSys :=
  let oa := net.oaLookup doi
  if oa.1 ≠ 200 then (false, fs)
  else
    match oa.2 with
    | none => (false, fs)
    | some pdfUrl =>
      let pdf := net.fetchPdf pdfUrl
      if pdf.1 ≠ 200 then (false, fs)
      else (true, fsWrite fs (safe_doi doi ++ ".pdf") pdf.2)

/-- Model of `try_download_with_mirrors` at the payload level: mirrors in order,
stop at first success, then the open-access fallback. -/
def try_download_with_mirrors_fs (net : Net) (doi : String) :
    List String → FileSys → Bool × FileSys
  | [], fs => download_open_access_fs net doi fs
  | m :: ms, fs =>
    let r := download_paper_fs net doi m fs
    if r.1 then (true, r.2) else try_download_with_mirrors_fs net doi ms r.2

/-- Model of `batch_download` at the payload level. -/
def batch_download_fs (net : Net) :
    List String → List String → FileSys → (List String × List String) × FileSys
  | [], _, fs => (([], []), fs)
  | d :: ds, mirrors, fs =>
    let r := try_download_with_mirrors_fs net d mirrors fs
    let rest := batch_download_fs net ds mirrors r.2
    (if r.1 then (d :: rest.1.1, rest.1.2) else (rest.1.1, d :: rest.1.2), rest.2)

/-- Parsing of the uploaded DOI file (src/app.py line 296): split on
commas, keep the tokens that are nonempty after stripping, and strip
whitespace and surrounding double quotes from each. -/
def parse_doi_list (content : String) : List String :=
  (splitComma content).filterMap (fun l =>
    let t := trimChars l
    if t.isEmpty then none else some (String.mk (stripQuoteChars t)))

/-- The failure manifest (src/app.py lines 233-240): the failed DOIs
joined by newlines. -/
def failed_dois_text (failed : List String) : String :=
  joinNewline failed

/-! ### Concrete oracles used by the scenario claims -/

/-- Oracle for the end-to-end scenario: mirrors M1 and M2, where M1
fails for both DOIs, M2 serves a page for `10.1/AAA` whose extracted
link resolves to a fetchable payload, M2 fails for `10.1/BBB`, and the
open-access lookup fails for everything. -/
def scenarioNet : Net where
  fetchPage := fun u =>
    if u = "https://m2.example/10.1/AAA" then (200, "pageAAA") else (404, "")
  extractPdf := fun h =>
    if h = "pageAAA" then some "/files/aaa.pdf" else none
  fetchPdf := fun u =>
    if u = "https://m2.example/files/aaa.pdf" then (200, "%PDF-1.4 scenario payload")
    else (404, "")
  oaLookup := fun _ => (404, none)

/-- Oracle for the filename-collision scenario: a single mirror serves
both `10.1/x` and `10.1_x`, with distinct payloads. -/
def collisionNet : Net where
  fetchPage := fun u =>
    if u = "https://m.example/10.1/x" then (200, "pageSlash")
    else if u = "https://m.example/10.1_x" then (200, "pageUnderscore")
    else (404, "")
  extractPdf := fun h =>
    if h = "pageSlash" then some "http://pdfs.example/one.pdf"
    else if h = "pageUnderscore" then some "http://pdfs.example/two.pdf"
    else none
  fetchPdf := fun u =>
    if u = "http://pdfs.example/one.pdf" then (200, "%PDF-1.4 payload one")
    else if u = "http://pdfs.example/two.pdf" then (200, "%PDF-1.4 payload two")
    else (404, "")
  oaLookup := fun _ => (404, none)

/-- Oracle on which the open-access fallback resolves a URL whose fetch
returns a small HTML error page with HTTP 200. -/
def oaHtmlNet : Net where
  fetchPage := fun _ => (404, "")
  extractPdf := fun _ => none
  fetchPdf := fun u =>
    if u = "http://oa.example/blocked.pdf" then (200, "<html>blocked</html>") else (404, "")
  oaLookup := fun d =>
    if d = "10.1/b" then (200, some "http://oa.example/blocked.pdf") else (404, none)

/-- Oracle whose mirror pipeline always reaches the write stage with a
small HTML payload. -/
def smallHtmlNet : Net where
  fetchPage := fun _ => (200, "page")
  extractPdf := fun _ => some "http://pdfs.example/x.pdf"
  fetchPdf := fun _ => (200, "<html>e</html>")
  oaLookup := fun _ => (404, none)

/-- A 500-byte payload whose first bytes contain the HTML marker. -/
def htmlPayload500 : String :=
  String.mk ('<' :: 'h' :: 't' :: 'm' :: 'l' :: List.replicate 495 'x')

/-- A 500-byte payload containing no HTML marker. -/
def plainPayload500 : String :=
  String.mk (List.replicate 500 'x')

/-- The first event of a trace is not a sleep. -/
def head_not_sleep : List DlEvent → Bool
  | [] => true
  | e :: _ => !(isSleepEv e)

/-- The first event of a trace is a mirror attempt or the open-access
call. -/
def head_attempt_or_oa : List DlEvent → Bool
  | [] => false
  | e :: _ => isAttemptEv e || isOaEv e

/-- The batch invariant exactly as the specification states it: the two
result lists partition the input by size, and every input DOI appears in
exactly one of them, exactly once. -/
abbrev batch_exactly_once
    (dois mirrors : List String)
    (mb : String → String → Except String Bool)
    (oab : String → Except String Bool) : Prop :=
  let r := batch_download dois mirrors mb oab
  r.1.length + r.2.length = dois.length ∧
  ∀ d ∈ dois,
    (r.1.count d = 1 ∧ r.2.count d = 0) ∨ (r.1.count d = 0 ∧ r.2.count d = 1)

/-! ## Helper lemmas -/

/-- Unfolding equation for `normalize_doi`. -/
theorem normalize_doi_eq (s : String) :
    normalize_doi s
      = if strStartsWith (strTrim s) "https://doi.org/" = true
        then strRemoveAll (strTrim s) "https://doi.org/"
        else strTrim s := rfl

/-! ## Claims -/

/-- C7: DOI normalization trims surrounding whitespace and removes the
`https://doi.org/` prefix with no further validation, and the claim
asserts it is idempotent.  Counterexample: on the input
`"https://doi.org/ x"` the source normalizes to `" x"`, and normalizing
that once more yields `"x"`, so normalization is not idempotent. -/
theorem claim_C7_counterexample :
    normalize_doi (normalize_doi "https://doi.org/ x")
      ≠ normalize_doi "https://doi.org/ x" := by decide

/-- C7 (amended): normalization deletes every occurrence of the resolver
prefix from the trimmed input; it is idempotent on every input whose
normalized form is itself trimmed and does not start with the prefix (in
particular on every ordinary DOI), and
`normalize("https://doi.org/10.1/x") = normalize("10.1/x")`. -/
theorem claim_C7_main (s : String)
    (h1 : strStartsWith (normalize_doi s) "https://doi.org/" = false)
    (h2 : strTrim (normalize_doi s) = normalize_doi s) :
    normalize_doi (normalize_doi s) = normalize_doi s ∧
    normalize_doi "https://doi.org/10.1/x" = normalize_doi "10.1/x" ∧
    normalize_doi "https://doi.org/https://doi.org/x" = "x" := by
  refine ⟨?_, by decide, by decide⟩
  rw [normalize_doi_eq (normalize_doi s), h2, h1]
  simp

/-- C7 witness: the amended idempotence instantiated at the ordinary DOI
`"10.1/x"`. -/
theorem claim_C7_witness :
    strStartsWith (normalize_doi "10.1/x") "https://doi.org/" = false ∧
    strTrim (normalize_doi "10.1/x") = normalize_doi "10.1/x" ∧
    normalize_doi (normalize_doi "10.1/x") = normalize_doi "10.1/x" :=
  ⟨by decide, by decide, (claim_C7_main "10.1/x" (by decide) (by decide)).1⟩

/-- C9: URL resolution applies its rules in order — protocol-relative
candidates get `https:` prepended, candidates already carrying an
`http://` or `https://` scheme are used as-is, and any other candidate
is resolved against `scheme://host` of the mirror base URL, with a `/`
inserted unless the candidate starts with one; the three concrete
resolutions of the specification hold. -/
theorem claim_C9_main (u base : String) :
    resolve_pdf_url "//host/a.pdf" "https://mirror.example/" = "https://host/a.pdf" ∧
    resolve_pdf_url "/a.pdf" "https://mirror.example/" = "https://mirror.example/a.pdf" ∧
    resolve_pdf_url "a.pdf" "https://mirror.example/" = "https://mirror.example/a.pdf" ∧
    (strStartsWith u "//" = true → resolve_pdf_url u base = "https:" ++ u) ∧
    (strStartsWith u "//" = false →
      (strStartsWith u "http://" || strStartsWith u "https://") = true →
      resolve_pdf_url u base = u) ∧
    (strStartsWith u "//" = false →
      (strStartsWith u "http://" || strStartsWith u "https://") = false →
      resolve_pdf_url u base =
        if strStartsWith u "/" = true then url_origin base ++ u
        else url_origin base ++ "/" ++ u) := by
  refine ⟨by decide, by decide, by decide, ?_, ?_, ?_⟩
  · intro h; simp [resolve_pdf_url, h]
  · intro h1 h2; simp [resolve_pdf_url, h1, h2]
  · intro h1 h2; simp [resolve_pdf_url, h1, h2]

/-- C9 witness: the protocol-relative rule instantiated at a concrete
candidate and base. -/
theorem claim_C9_witness :
    strStartsWith "//host/b.pdf" "//" = true ∧
    resolve_pdf_url "//host/b.pdf" "https://mirror.example/" = "https:" ++ "//host/b.pdf" :=
  ⟨by decide,
   (claim_C9_main "//host/b.pdf" "https://mirror.example/").2.2.2.1 (by decide)⟩

/-- C10: filename sanitization is not injective — the distinct DOIs
`10.1/x` and `10.1_x` map to the same output filename, so when both
succeed in one batch the later download silently overwrites the earlier
file while both DOIs are counted as successes. -/
theorem claim_C10_main :
    ("10.1/x" : String) ≠ "10.1_x" ∧
    safe_doi "10.1/x" = safe_doi "10.1_x" ∧
    batch_download_fs collisionNet ["10.1/x", "10.1_x"] ["https://m.example/"] []
      = ((["10.1/x", "10.1_x"], []), [("10.1_x.pdf", "%PDF-1.4 payload two")]) := by
  refine ⟨by decide, by decide, by decide⟩

/-- C5: in the end-to-end scenario the code records the *raw* second
input token `https://doi.org/10.1/BBB` (not the normalized `10.1/BBB`)
in the failed list and hence in the failure manifest, so the claimed
BatchResult `failed=[10.1/BBB]` and manifest line `10.1/BBB` are wrong. -/
theorem claim_C5_counterexample :
    (batch_download_fs scenarioNet
        (parse_doi_list "10.1/AAA, https://doi.org/10.1/BBB")
        ["https://m1.example/", "https://m2.example/"] []).1.2
      = ["https://doi.org/10.1/BBB"] ∧
    (batch_download_fs scenarioNet
        (parse_doi_list "10.1/AAA, https://doi.org/10.1/BBB")
        ["https://m1.example/", "https://m2.example/"] []).1.2
      ≠ ["10.1/BBB"] ∧
    failed_dois_text
        (batch_download_fs scenarioNet
          (parse_doi_list "10.1/AAA, https://doi.org/10.1/BBB")
          ["https://m1.example/", "https://m2.example/"] []).1.2
      ≠ "10.1/BBB" := by
  refine ⟨by decide, by decide, by decide⟩

/-- C5 (amended): for the end-to-end scenario with input
`"10.1/AAA, https://doi.org/10.1/BBB"` and mirrors [M1, M2], where M1
fails for both DOIs, M2 succeeds for `10.1/AAA` and fails for
`10.1/BBB`, and the open-access lookup fails for the second DOI: the
BatchResult is successful = [`10.1/AAA`] and
failed = [`https://doi.org/10.1/BBB`] (the raw input token), the output
directory contains exactly the one file `10.1_AAA.pdf`, and the failure
manifest contains exactly the line `https://doi.org/10.1/BBB`. -/
theorem claim_C5_main :
    parse_doi_list "10.1/AAA, https://doi.org/10.1/BBB"
      = ["10.1/AAA", "https://doi.org/10.1/BBB"] ∧
    batch_download_fs scenarioNet
        ["10.1/AAA", "https://doi.org/10.1/BBB"]
        ["https://m1.example/", "https://m2.example/"] []
      = ((["10.1/AAA"], ["https://doi.org/10.1/BBB"]),
         [("10.1_AAA.pdf", "%PDF-1.4 scenario payload")]) ∧
    failed_dois_text ["https://doi.org/10.1/BBB"] = "https://doi.org/10.1/BBB" := by
  refine ⟨by decide, by decide, by decide⟩

/-- C3: contrary to the claim, the open-access path applies no content
validation: on this oracle the resolver yields a URL whose fetch returns
a small HTML error page with HTTP 200, and the code keeps the file and
reports success even though the mirror-path validator rejects exactly
this payload. -/
theorem claim_C3_counterexample :
    (download_open_access_fs oaHtmlNet "10.1/b" []).1 = true ∧
    (download_open_access_fs oaHtmlNet "10.1/b" []).2
      = [("10.1_b.pdf", "<html>blocked</html>")] ∧
    content_rejected "<html>blocked</html>" = true := by
  refine ⟨by decide, by decide, by decide⟩

/-- C3 (amended): when the open-access resolver yields a URL and its
fetch returns HTTP 200, the payload is written under the sanitized DOI
filename and counted as success unconditionally — the size-floor and
HTML-sniff validation of the mirror path is not applied on this path. -/
theorem claim_C3_main (net : Net) (doi : String) (fs : FileSys) (u c : String)
    (h1 : net.oaLookup doi = (200, some u))
    (h2 : net.fetchPdf u = (200, c)) :
    download_open_access_fs net doi fs
      = (true, fsWrite fs (safe_doi doi ++ ".pdf") c) := by
  simp [download_open_access_fs, h1, h2]

/-- C3 witness: the amended open-access characterization instantiated on
the HTML-page oracle. -/
theorem claim_C3_witness :
    oaHtmlNet.oaLookup "10.1/b" = (200, some "http://oa.example/blocked.pdf") ∧
    oaHtmlNet.fetchPdf "http://oa.example/blocked.pdf" = (200, "<html>blocked</html>") ∧
    download_open_access_fs oaHtmlNet "10.1/b" []
      = (true, fsWrite [] (safe_doi "10.1/b" ++ ".pdf") "<html>blocked</html>") :=
  ⟨by decide, by decide,
   claim_C3_main oaHtmlNet "10.1/b" [] "http://oa.example/blocked.pdf"
     "<html>blocked</html>" (by decide) (by decide)⟩

/-- The outcome-level batch partitions the input by the per-DOI outcome,
preserving input order in both lists. -/
theorem batch_download_eq_filter
    (dois mirrors : List String)
    (mb : String → String → Except String Bool)
    (oab : String → Except String Bool) :
    batch_download dois mirrors mb oab
      = (dois.filter (fun d => try_download_with_mirrors d mirrors mb oab),
         dois.filter (fun d => !try_download_with_mirrors d mirrors mb oab)) := by
  induction dois with
  | nil => simp [batch_download]
  | cons d ds ih =>
    simp only [batch_download, ih, List.filter_cons]
    cases h : try_download_with_mirrors d mirrors mb oab <;> simp [h]

/-- The two batch result lists together have the size of the input. -/
theorem batch_download_length
    (dois mirrors : List String)
    (mb : String → String → Except String Bool)
    (oab : String → Except String Bool) :
    (batch_download dois mirrors mb oab).1.length
      + (batch_download dois mirrors mb oab).2.length = dois.length := by
  induction dois with
  | nil => simp [batch_download]
  | cons d ds ih =>
    simp only [batch_download]
    cases h : try_download_with_mirrors d mirrors mb oab <;> simp [h] <;> omega

/-- Every DOI occurs in the two batch result lists with total
multiplicity equal to its multiplicity in the input list. -/
theorem batch_download_count
    (dois mirrors : List String)
    (mb : String → String → Except String Bool)
    (oab : String → Except String Bool) (d : String) :
    (batch_download dois mirrors mb oab).1.count d
      + (batch_download dois mirrors mb oab).2.count d = dois.count d := by
  induction dois with
  | nil => simp [batch_download]
  | cons x ds ih =>
    simp only [batch_download]
    cases h : try_download_with_mirrors x mirrors mb oab <;>
      simp [h, List.count_cons] <;> omega

/-- A fallback chain every one of whose attempt bodies raises reports
failure. -/
theorem tdwm_false_of_all_error
    (doi : String) (mirrors : List String)
    (mb : String → String → Except String Bool)
    (oab : String → Except String Bool)
    (hm : ∀ m ∈ mirrors, ∃ e, mb m (normalize_doi doi) = Except.error e)
    (ho : ∃ e, oab doi = Except.error e) :
    try_download_with_mirrors doi mirrors mb oab = false := by
  induction mirrors with
  | nil =>
    obtain ⟨e, he⟩ := ho
    simp [try_download_with_mirrors, attempt_result, he]
  | cons m ms ih =>
    obtain ⟨e, he⟩ := hm m (by simp)
    simp only [try_download_with_mirrors, attempt_result, he, if_false]
    exact ih (fun m' hm' => hm m' (by simp [hm']))

/-- C1: the claim that for every input list `|successful| + |failed| =
|input|` and every input DOI appears in exactly one of the two lists
exactly once fails when the input list contains a duplicate: with the
DOI `10.1/a` listed twice and every attempt succeeding, `10.1/a` appears
twice in the successful list. -/
theorem claim_C1_counterexample :
    ¬ batch_exactly_once ["10.1/a", "10.1/a"] ["M"]
        (fun _ _ => Except.ok true) (fun _ => Except.ok false) := by
  decide

/-- C1 (amended): the successful list is the input subsequence of DOIs
whose chain succeeded and the failed list the input subsequence of those
whose chain failed (so each list preserves input-relative order), the
two lengths sum to the input length, and every DOI occurs in the two
lists with total multiplicity equal to its input multiplicity — in
particular, for a duplicate-free input every input DOI appears in
exactly one of the two lists, exactly once. -/
theorem claim_C1_main
    (dois mirrors : List String)
    (mb : String → String → Except String Bool)
    (oab : String → Except String Bool) :
    (batch_download dois mirrors mb oab).1
        = dois.filter (fun d => try_download_with_mirrors d mirrors mb oab) ∧
    (batch_download dois mirrors mb oab).2
        = dois.filter (fun d => !try_download_with_mirrors d mirrors mb oab) ∧
    (batch_download dois mirrors mb oab).1.length
        + (batch_download dois mirrors mb oab).2.length = dois.length ∧
    (∀ d : String,
      (batch_download dois mirrors mb oab).1.count d
        + (batch_download dois mirrors mb oab).2.count d = dois.count d) ∧
    (dois.Nodup → ∀ d ∈ dois,
      ((batch_download dois mirrors mb oab).1.count d = 1
        ∧ (batch_download dois mirrors mb oab).2.count d = 0)
      ∨ ((batch_download dois mirrors mb oab).1.count d = 0
        ∧ (batch_download dois mirrors mb oab).2.count d = 1)) := by
  refine ⟨?_, ?_, batch_download_length dois mirrors mb oab,
          fun d => batch_download_count dois mirrors mb oab d, ?_⟩
  · exact congrArg Prod.fst (batch_download_eq_filter dois mirrors mb oab)
  · exact congrArg Prod.snd (batch_download_eq_filter dois mirrors mb oab)
  · intro hnd d hd
    have hc := batch_download_count dois mirrors mb oab d
    have h1 : dois.count d = 1 := List.count_eq_one_of_mem hnd hd
    omega

/-- C1 witness: the exactly-once consequence for the duplicate-free
input `["10.1/a"]` with an always-succeeding oracle. -/
theorem claim_C1_witness :
    ((batch_download ["10.1/a"] ["M"]
        (fun _ _ => Except.ok true) (fun _ => Except.ok false)).1.count "10.1/a" = 1
      ∧ (batch_download ["10.1/a"] ["M"]
        (fun _ _ => Except.ok true) (fun _ => Except.ok false)).2.count "10.1/a" = 0)
    ∨ ((batch_download ["10.1/a"] ["M"]
        (fun _ _ => Except.ok true) (fun _ => Except.ok false)).1.count "10.1/a" = 0
      ∧ (batch_download ["10.1/a"] ["M"]
        (fun _ _ => Except.ok true) (fun _ => Except.ok false)).2.count "10.1/a" = 1) :=
  (claim_C1_main ["10.1/a"] ["M"]
      (fun _ _ => Except.ok true) (fun _ => Except.ok false)).2.2.2.2
    (by decide) "10.1/a" (by decide)

/-- C2: an exception raised inside the body of any attempt for one DOI
is caught by the handler of `download_paper` (or of
`download_open_access`) and becomes an ordinary failure: a DOI all of
whose attempt bodies raise is recorded in the failed list, the batch
still accounts for every input DOI, and processing reaches every other
DOI — the batch always completes with a full BatchResult, even when
every attempt of every DOI raises. -/
theorem claim_C2_main
    (dois mirrors : List String)
    (mb : String → String → Except String Bool)
    (oab : String → Except String Bool) (d : String)
    (hmem : d ∈ dois)
    (hm : ∀ m ∈ mirrors, ∃ e, mb m (normalize_doi d) = Except.error e)
    (ho : ∃ e, oab d = Except.error e) :
    d ∈ (batch_download dois mirrors mb oab).2 ∧
    (batch_download dois mirrors mb oab).1.length
      + (batch_download dois mirrors mb oab).2.length = dois.length ∧
    (∀ d' ∈ dois,
      d' ∈ (batch_download dois mirrors mb oab).1
      ∨ d' ∈ (batch_download dois mirrors mb oab).2) := by
  have hf := tdwm_false_of_all_error d mirrors mb oab hm ho
  have hfil := batch_download_eq_filter dois mirrors mb oab
  refine ⟨?_, batch_download_length dois mirrors mb oab, ?_⟩
  · have h2 := congrArg Prod.snd hfil
    rw [h2]
    simp only [List.mem_filter]
    exact ⟨hmem, by simp [hf]⟩
  · intro d' hd'
    have h1 := congrArg Prod.fst hfil
    have h2 := congrArg Prod.snd hfil
    rw [h1, h2]
    by_cases hc : try_download_with_mirrors d' mirrors mb oab = true
    · exact Or.inl (by simp [List.mem_filter, hd', hc])
    · exact Or.inr (by simp [List.mem_filter, hd', Bool.not_eq_true _ ▸ hc])

/-- C2 witness: with one DOI and one mirror whose bodies both raise, the
DOI lands in the failed list and the batch result is complete. -/
theorem claim_C2_witness :
    "10.1/a" ∈ (batch_download ["10.1/a"] ["M"]
        (fun _ _ => Except.error "boom") (fun _ => Except.error "boom")).2 ∧
    (batch_download ["10.1/a"] ["M"]
        (fun _ _ => Except.error "boom") (fun _ => Except.error "boom")).1.length
      + (batch_download ["10.1/a"] ["M"]
        (fun _ _ => Except.error "boom") (fun _ => Except.error "boom")).2.length = 1 ∧
    (∀ d' ∈ (["10.1/a"] : List String),
      d' ∈ (batch_download ["10.1/a"] ["M"]
        (fun _ _ => Except.error "boom") (fun _ => Except.error "boom")).1
      ∨ d' ∈ (batch_download ["10.1/a"] ["M"]
        (fun _ _ => Except.error "boom") (fun _ => Except.error "boom")).2) :=
  claim_C2_main ["10.1/a"] ["M"]
    (fun _ _ => Except.error "boom") (fun _ => Except.error "boom") "10.1/a"
    (by decide) (fun m _ => ⟨"boom", rfl⟩) ⟨"boom", rfl⟩

/-- A fallback trace starts with a mirror attempt or, when the mirror
list is empty, with the open-access call. -/
theorem tdwm_trace_head_ok (ms : List String) (f : String → Bool) (oa : Bool) :
    head_attempt_or_oa (tdwm_trace ms f oa).2 = true := by
  cases ms with
  | nil => simp [tdwm_trace, head_attempt_or_oa, isOaEv]
  | cons m ms =>
    cases h : f m <;> simp [tdwm_trace, h, head_attempt_or_oa, isAttemptEv]

/-- A fallback trace never begins with a sleep. -/
theorem tdwm_trace_head_not_sleep (ms : List String) (f : String → Bool) (oa : Bool) :
    head_not_sleep (tdwm_trace ms f oa).2 = true := by
  have h := tdwm_trace_head_ok ms f oa
  cases hrest : (tdwm_trace ms f oa).2 with
  | nil => simp [head_not_sleep]
  | cons e rest =>
    rw [hrest] at h
    cases e <;>
      simp_all [head_not_sleep, head_attempt_or_oa, isSleepEv, isAttemptEv, isOaEv]

/-- Every sleep in a fallback trace is immediately preceded by a mirror
attempt and immediately followed by a mirror attempt or the open-access
call, and no trace ends in a sleep. -/
theorem tdwm_trace_chain (ms : List String) (f : String → Bool) (oa : Bool) :
    sleep_chain_ok (tdwm_trace ms f oa).2 = true := by
  induction ms with
  | nil => simp [tdwm_trace, sleep_chain_ok, isSleepEv]
  | cons m ms ih =>
    cases h : f m with
    | true => simp [tdwm_trace, h, sleep_chain_ok, isSleepEv]
    | false =>
      have hhead := tdwm_trace_head_ok ms f oa
      simp only [tdwm_trace, h, Bool.false_eq_true, if_false]
      cases hrest : (tdwm_trace ms f oa).2 with
      | nil => rw [hrest] at hhead; simp [head_attempt_or_oa] at hhead
      | cons e3 rest' =>
        rw [hrest] at hhead ih
        cases e3 <;>
          simp_all [sleep_chain_ok, head_attempt_or_oa, isSleepEv, isAttemptEv, isOaEv]

/-- A fallback trace contains exactly one sleep for every tried mirror
that failed — in particular one sleep after the last failed mirror,
before the open-access call. -/
theorem tdwm_trace_sleep_count (ms : List String) (f : String → Bool) (oa : Bool) :
    (tdwm_trace ms f oa).2.countP isSleepEv
      = (mirrorsTried f ms).countP (fun m => !(f m)) := by
  induction ms with
  | nil => simp [tdwm_trace, mirrorsTried, isSleepEv]
  | cons m ms ih =>
    cases h : f m with
    | true =>
      simp [tdwm_trace, h, mirrorsTried, List.countP_cons, isSleepEv]
    | false =>
      simp [tdwm_trace, h, mirrorsTried, List.countP_cons, isSleepEv, isAttemptEv, ih]

/-- The mirrors attempted in a fallback trace are exactly the prefix of
the mirror list up to and including the first success, in order. -/
theorem tdwm_trace_attempts (ms : List String) (f : String → Bool) (oa : Bool) :
    attemptsOf (tdwm_trace ms f oa).2 = mirrorsTried f ms := by
  induction ms with
  | nil => simp [tdwm_trace, attemptsOf, mirrorsTried]
  | cons m ms ih =>
    cases h : f m <;>
      simp_all [tdwm_trace, h, attemptsOf, mirrorsTried]

/-- The open-access call appears in a fallback trace exactly when every
mirror fails. -/
theorem tdwm_trace_oa_mem (ms : List String) (f : String → Bool) (oa : Bool) :
    DlEvent.oaCall ∈ (tdwm_trace ms f oa).2 ↔ ∀ m ∈ ms, f m = false := by
  induction ms with
  | nil => simp [tdwm_trace]
  | cons m ms ih =>
    cases h : f m with
    | true => simp [tdwm_trace, h]
    | false => simp [tdwm_trace, h, ih]

/-- C4: the claim that the randomized delay occurs only between
consecutive mirror attempts fails: with a single failing mirror the
trace is attempt, sleep, open-access call — the sleep follows the last
mirror attempt and precedes the open-access fallback. -/
theorem claim_C4_counterexample :
    (tdwm_trace ["M1"] (fun _ => false) false).2
      = [DlEvent.attempt "M1", DlEvent.sleep, DlEvent.oaCall] ∧
    delay_only_between_attempts (tdwm_trace ["M1"] (fun _ => false) false).2 = false := by
  refine ⟨by decide, by decide⟩

/-- C4 (amended): in every per-DOI fallback run the delay never occurs
before the first mirror attempt, every delay immediately follows a
mirror attempt and is immediately followed by a mirror attempt or by
the open-access call (never after it, and never last), and exactly one
delay follows every failed mirror attempt — including the last one, so
a delay does occur between mirror exhaustion and the open-access
fallback. -/
theorem claim_C4_main (ms : List String) (f : String → Bool) (oa : Bool) :
    head_not_sleep (tdwm_trace ms f oa).2 = true ∧
    sleep_chain_ok (tdwm_trace ms f oa).2 = true ∧
    (tdwm_trace ms f oa).2.countP isSleepEv
      = (mirrorsTried f ms).countP (fun m => !(f m)) :=
  ⟨tdwm_trace_head_not_sleep ms f oa, tdwm_trace_chain ms f oa,
   tdwm_trace_sleep_count ms f oa⟩

/-- C6: mirrors are attempted one at a time in configured order and the
chain stops at the first success — the attempted mirrors are exactly
the prefix of the configured list up to the first success; the
open-access call happens exactly when every mirror fails; and with
three mirrors of which only the second succeeds, exactly two mirror
attempts occur and the open-access fallback is not invoked. -/
theorem claim_C6_main :
    (∀ (ms : List String) (f : String → Bool) (oa : Bool),
      attemptsOf (tdwm_trace ms f oa).2 = mirrorsTried f ms) ∧
    (∀ (ms : List String) (f : String → Bool) (oa : Bool),
      DlEvent.oaCall ∈ (tdwm_trace ms f oa).2 ↔ ∀ m ∈ ms, f m = false) ∧
    (tdwm_trace ["M1", "M2", "M3"] (fun m => m == "M2") false).1 = true ∧
    attemptsOf (tdwm_trace ["M1", "M2", "M3"] (fun m => m == "M2") false).2
      = ["M1", "M2"] ∧
    (tdwm_trace ["M1", "M2", "M3"] (fun m => m == "M2") false).2.countP isAttemptEv
      = 2 ∧
    DlEvent.oaCall ∉ (tdwm_trace ["M1", "M2", "M3"] (fun m => m == "M2") false).2 :=
  ⟨tdwm_trace_attempts, tdwm_trace_oa_mem, by decide, by decide, by decide, by decide⟩

/-- C6 witness: the open-access characterization instantiated at a
single failing mirror. -/
theorem claim_C6_witness :
    DlEvent.oaCall ∈ (tdwm_trace ["M1"] (fun _ => false) true).2 :=
  (claim_C6_main.2.1 ["M1"] (fun _ => false) true).mpr (by decide)

/-- C8: on the mirror path, once the pipeline reaches a written payload
`c`: when `c` is shorter than 10,000 bytes the attempt fails exactly
when the lower-cased first 1,000 bytes contain an HTML marker, in which
case the already-written file is removed; a small payload without the
marker, and any payload of 10,000 bytes or more (unconditionally), is
accepted and kept; the 500-byte payloads of the specification behave as
stated. -/
theorem claim_C8_main
    (net : Net) (doi mirror : String) (fs : FileSys) (html cand c : String)
    (h1 : net.fetchPage (mirror ++ normalize_doi doi) = (200, html))
    (h2 : net.extractPdf html = some cand)
    (h3 : net.fetchPdf (resolve_pdf_url cand mirror) = (200, c)) :
    (c.data.length < 10000 →
      ((download_paper_fs net doi mirror fs).1 = false ↔ html_sniff c = true) ∧
      (html_sniff c = true →
        download_paper_fs net doi mirror fs
          = (false,
             fsRemove (fsWrite fs (safe_doi (normalize_doi doi) ++ ".pdf") c)
               (safe_doi (normalize_doi doi) ++ ".pdf"))) ∧
      (html_sniff c = false →
        download_paper_fs net doi mirror fs
          = (true, fsWrite fs (safe_doi (normalize_doi doi) ++ ".pdf") c))) ∧
    (10000 ≤ c.data.length →
      download_paper_fs net doi mirror fs
        = (true, fsWrite fs (safe_doi (normalize_doi doi) ++ ".pdf") c)) ∧
    htmlPayload500.data.length = 500 ∧
    content_rejected htmlPayload500 = true ∧
    plainPayload500.data.length = 500 ∧
    content_rejected plainPayload500 = false := by
  have hd : download_paper_fs net doi mirror fs
      = (if content_rejected c then
           (false,
            fsRemove (fsWrite fs (safe_doi (normalize_doi doi) ++ ".pdf") c)
              (safe_doi (normalize_doi doi) ++ ".pdf"))
         else (true, fsWrite fs (safe_doi (normalize_doi doi) ++ ".pdf") c)) := by
    simp [download_paper_fs, h1, h2, h3]
  refine ⟨?_, ?_, by decide, by decide, by decide, by decide⟩
  · intro hlen
    have hcr : content_rejected c = html_sniff c := by
      have ht : decide (c.data.length < 10000) = true := decide_eq_true hlen
      unfold content_rejected
      rw [ht, Bool.true_and]
    refine ⟨?_, ?_, ?_⟩
    · rw [hd, hcr]; cases hs : html_sniff c <;> simp [hs]
    · intro hs; rw [hd, hcr, hs]; simp
    · intro hs; rw [hd, hcr, hs]; simp
  · intro hlen
    have hcr : content_rejected c = false := by
      have ht : decide (c.data.length < 10000) = false := decide_eq_false (by omega)
      unfold content_rejected
      rw [ht, Bool.false_and]
    rw [hd, hcr]; simp

/-- C8 witness: on an oracle delivering a small HTML payload the attempt
fails and the written file is removed again. -/
theorem claim_C8_witness :
    download_paper_fs smallHtmlNet "10.1/w" "https://m.example/" [] = (false, []) := by
  have h := (claim_C8_main smallHtmlNet "10.1/w" "https://m.example/" []
      "page" "http://pdfs.example/x.pdf" "<html>e</html>" rfl rfl rfl).1 (by decide)
  have h2 := h.2.1 (by decide)
  rw [h2]
  decide
